import Mathlib

/-!
Verification of the geometric extraction/recombination protocol of the
manga_face_reenact repository (src/stage1.py, src/stage3.py).

The Python code is shallowly embedded: pure geometry helpers become Lean
functions over `ℤ` (Python ints; the float intermediate values in
`to_square_bbox` are exact halves of integers, so `int()` truncation toward
zero of `v / 2` is encoded as `intTrunc2` applied to the doubled value `v`),
stateful pipeline code becomes functions returning their result together with
an explicit trace of file-system effects, and the JSON metadata document
becomes an association list of field-name/value pairs.
-/

set_option autoImplicit false

namespace MangaFaceReenact

/-- Truncation toward zero of `n / 2`, exactly what Python's `int()` does to
the float `n / 2` (the floats arising in `to_square_bbox` are exact). -/
def intTrunc2 (n : ℤ) : ℤ :=
  if 0 ≤ n then ((n.toNat / 2 : ℕ) : ℤ) else -(((-n).toNat / 2 : ℕ) : ℤ)

/-- Truncation toward zero of a rational, modelling Python's `int()` applied
to the float `width * padding_factor` in `get_padded_landmark_bbox`. -/
def ratTrunc (q : ℚ) : ℤ :=
  if 0 ≤ q then ⌊q⌋ else -⌊-q⌋

/-- An axis-aligned box `(x1, y1, x2, y2)` in source-image pixel coordinates,
the 4-tuples passed around by stage1.py. -/
structure Bbox where
  x1 : ℤ
  y1 : ℤ
  x2 : ℤ
  y2 : ℤ
deriving DecidableEq, Repr

/-- stage1.py `to_square_bbox`: `width = x2 - x1`, `height = y2 - y1`,
`center = (x1 + width/2, y1 + height/2)`, `side_length = max(width, height)`,
and the four outputs are `int(center ± side_length/2)`.  Since
`center_x - side_length/2 = (2*x1 + width - side_length) / 2` exactly (and
similarly for the other three), each output is `intTrunc2` of the doubled
value. -/
def to_square_bbox (b : Bbox) : Bbox :=
  let width := b.x2 - b.x1
  let height := b.y2 - b.y1
  let side_length := max width height
  { x1 := intTrunc2 (2 * b.x1 + width - side_length)
    y1 := intTrunc2 (2 * b.y1 + height - side_length)
    x2 := intTrunc2 (2 * b.x1 + width + side_length)
    y2 := intTrunc2 (2 * b.y1 + height + side_length) }

/-- Model of `np.min` over a nonempty collection (first element and rest). -/
def npMin (x : ℤ) (xs : List ℤ) : ℤ := xs.foldl min x

/-- Model of `np.max` over a nonempty collection (first element and rest). -/
def npMax (x : ℤ) (xs : List ℤ) : ℤ := xs.foldl max x

/-- stage1.py `get_padded_landmark_bbox`: bounding rectangle of the landmark
points, expanded by `int(width * padding_factor)` horizontally and
`int(height * padding_factor)` vertically on each side.  `np.min`/`np.max` on
an empty array raise in Python; the `[]` case here is a dead branch. -/
def get_padded_landmark_bbox (landmarks : List (ℤ × ℤ)) (padding_factor : ℚ) : Bbox :=
  match landmarks with
  | [] => ⟨0, 0, 0, 0⟩
  | p :: rest =>
    let min_x := npMin p.1 (rest.map Prod.fst)
    let min_y := npMin p.2 (rest.map Prod.snd)
    let max_x := npMax p.1 (rest.map Prod.fst)
    let max_y := npMax p.2 (rest.map Prod.snd)
    let width := max_x - min_x
    let height := max_y - min_y
    let pad_x := ratTrunc ((width : ℚ) * padding_factor)
    let pad_y := ratTrunc ((height : ℚ) * padding_factor)
    ⟨min_x - pad_x, min_y - pad_y, max_x + pad_x, max_y + pad_y⟩

/-- stage1.py `manual_crop_callback`, mouse-release branch: from the press
point and the release point it computes `dx = abs(...)`, `dy = abs(...)`,
`side_length = max(dx, dy)` and appends the box whose top-left is the press
point and whose bottom-right is `press + (side_length, side_length)`. -/
def manual_crop_box (press release : ℤ × ℤ) : Bbox :=
  let dx := |release.1 - press.1|
  let dy := |release.2 - press.2|
  let side_length := max dx dy
  ⟨press.1, press.2, press.1 + side_length, press.2 + side_length⟩

/-- Size of `PIL.Image.crop` at a box: the coordinate differences.  PIL pads
regions outside the image bounds, so the size does not depend on the image;
the pipeline only ever crops boxes with nonnegative differences. -/
def cropSize (b : Bbox) : ℤ × ℤ := (b.x2 - b.x1, b.y2 - b.y1)

/-! ### Path helpers (models of `os.path` functions used by the two stages) -/

/-- Model of `os.path.join dir name` for a relative `name`. -/
def joinPath (dir name : String) : String := dir ++ "/" ++ name

/-- Model of `os.path.basename`: the part after the last `/`. -/
def basename (s : String) : String := String.mk ((s.data.splitOn '/').getLastD s.data)

/-- Model of the root part of `os.path.splitext`: everything before the last
dot, except that a dot with only dots before it does not start an extension
(Python keeps names like `.bashrc` whole). -/
def splitextRoot (s : String) : String :=
  let cs := s.data
  match ((cs.enum.filter (fun pr => pr.2 = '.')).getLast?.map Prod.fst) with
  | none => s
  | some i => if (cs.take i).all (fun c => c = '.') then s else ⟨cs.take i⟩

/-- Model of `os.path.dirname`: the part before the last `/` (empty when
there is no `/`). -/
def dirname (s : String) : String :=
  let parts := s.data.splitOn '/'
  if parts.length ≤ 1 then "" else String.mk (List.intercalate ['/'] parts.dropLast)


/-! ### Stage 1: extraction pipeline (`prepare_faces`) -/

/-- A file-system effect performed by one of the pipelines. -/
inductive FsEffect where
  | mkDir (path : String)
  | writeFile (path : String)
deriving DecidableEq, Repr

/-- One entry of the `metadata.json` list, exactly the dict built in
`prepare_faces` (stage1.py lines 150-157), with its source field names. -/
structure FaceRecord where
  face_id : ℕ
  face_image_512px_path : String
  original_size : ℤ × ℤ
  paste_coordinates : ℤ × ℤ
  original_bbox_square : Bbox
  source_image : String
deriving DecidableEq, Repr

/-- The `for i, coords in enumerate(square_bounding_boxes)` loop of
`prepare_faces`: one `FaceRecord` per box, `face_id` equal to the position
index, `original_size` the crop size, `paste_coordinates` the box's top-left
corner. -/
def buildRecords (specific_output_dir image_path : String) : ℕ → List Bbox → List FaceRecord
  | _, [] => []
  | i, b :: rest =>
    { face_id := i
      face_image_512px_path := joinPath specific_output_dir ("face_" ++ toString i ++ ".png")
      original_size := cropSize b
      paste_coordinates := (b.x1, b.y1)
      original_bbox_square := b
      source_image := image_path } :: buildRecords specific_output_dir image_path (i + 1) rest

/-- stage1.py `prepare_faces`, after the mode-specific detection/selection
step produced `boxes` (`square_bounding_boxes` in the source): returns the
metadata list together with the trace of file-system effects.  `imageOk` is
whether `Image.open` succeeded (on `FileNotFoundError` the function returns
`[]` before touching the file system).  The output sub-directory is created
(`os.makedirs`) before the box list is examined; the face images and the
metadata document are written only when at least one box is present. -/
def prepare_faces (imageOk : Bool) (image_path : String) (boxes : List Bbox)
    (output_dir : String) : List FaceRecord × List FsEffect :=
  if !imageOk then ([], [])
  else
    let base_filename := basename image_path
    let source_name := splitextRoot base_filename
    let specific_output_dir := joinPath output_dir source_name
    if boxes.isEmpty then ([], [FsEffect.mkDir specific_output_dir])
    else
      let records := buildRecords specific_output_dir image_path 0 boxes
      (records,
        FsEffect.mkDir specific_output_dir ::
          records.map (fun r => FsEffect.writeFile r.face_image_512px_path) ++
          [FsEffect.writeFile (joinPath specific_output_dir "metadata.json")])

/-! ### The persisted metadata document (field-name level) -/

/-- A value of one metadata field, as serialized to `metadata.json`. -/
inductive MVal where
  | mInt (n : ℤ)
  | mStr (s : String)
  | mPair (p : ℤ × ℤ)
  | mQuad (b : Bbox)
deriving DecidableEq, Repr

/-- The `face_metadata` dict literal of stage1.py (lines 150-157): the
persisted field names, in source order, with their values. -/
def faceMetadataPairs (r : FaceRecord) : List (String × MVal) :=
  [("face_id", MVal.mInt r.face_id),
   ("face_image_512px_path", MVal.mStr r.face_image_512px_path),
   ("original_size", MVal.mPair r.original_size),
   ("paste_coordinates", MVal.mPair r.paste_coordinates),
   ("original_bbox_square", MVal.mQuad r.original_bbox_square),
   ("source_image", MVal.mStr r.source_image)]

/-- The field accesses `recombine_panel` performs on one metadata entry
(stage3.py lines 39-54): `face_id`, `face_image_512px_path`,
`original_size`, `paste_coordinates`, looked up by name. -/
def readFaceData (pairs : List (String × MVal)) : Option (ℤ × String × (ℤ × ℤ) × (ℤ × ℤ)) :=
  match pairs.lookup "face_id", pairs.lookup "face_image_512px_path",
      pairs.lookup "original_size", pairs.lookup "paste_coordinates" with
  | some (MVal.mInt fid), some (MVal.mStr p), some (MVal.mPair os), some (MVal.mPair pc) =>
    some (fid, p, os, pc)
  | _, _, _, _ => none

/-! ### Stage 3: recombination pipeline (`recombine_panel`) -/

/-- The geometric action taken for one successfully recombined face: the
replacement opened at `opened_path` is resized to `resized_to` and pasted
with top-left corner `pasted_at` (stage3.py lines 53-63). -/
structure PasteOp where
  resized_to : ℤ × ℤ
  pasted_at : ℤ × ℤ
  opened_path : String
deriving DecidableEq, Repr

/-- stage3.py lines 43-44: the replacement file is located by joining the
replacement directory with the basename of the stored
`face_image_512px_path`. -/
def reenactedFacePath (reenacted_faces_dir : String) (r : FaceRecord) : String :=
  joinPath reenacted_faces_dir (basename r.face_image_512px_path)

/-- The `for face_data in all_faces_metadata` loop of `recombine_panel`:
a record whose replacement file is absent (`lookup` returns `none`,
the `FileNotFoundError` branch) is skipped with a warning and the loop
continues; otherwise the replacement is resized to `original_size`, pasted
at `paste_coordinates`, and the success counter is incremented.  `α` is the
type of loaded replacement images; the geometry never looks at them. -/
def recombineLoop {α : Type} (dir : String) (lookup : String → Option α) :
    List FaceRecord → List PasteOp × ℕ
  | [] => ([], 0)
  | r :: rest =>
    let acc := recombineLoop dir lookup rest
    match lookup (reenactedFacePath dir r) with
    | none => acc
    | some _ =>
      (⟨r.original_size, r.paste_coordinates, reenactedFacePath dir r⟩ :: acc.1, acc.2 + 1)

/-- stage3.py `recombine_panel`: aborts (no effects) when the original panel
or the metadata document is missing; otherwise runs the loop and, only when
`recombined_count > 0`, creates the output directory and writes the
recombined image. -/
def recombine_panel {α : Type} (panelOk metadataOk : Bool) (records : List FaceRecord)
    (reenacted_faces_dir : String) (lookup : String → Option α) (output_path : String) :
    List PasteOp × ℕ × List FsEffect :=
  if panelOk && metadataOk then
    let res := recombineLoop reenacted_faces_dir lookup records
    (res.1, res.2,
      if 0 < res.2 then [FsEffect.mkDir (dirname output_path), FsEffect.writeFile output_path]
      else [])
  else ([], 0, [])

/-- The boxes the two selection modes of `prepare_faces` can feed into the
final processing loop: auto mode squares a padded landmark box (with the
nonnegative padding factor 1.0; stated for any nonnegative factor), manual
mode emits a drawn box. -/
def NormalizedBox (b : Bbox) : Prop :=
  (∃ pts : List (ℤ × ℤ), ∃ f : ℚ, 0 ≤ f ∧ b = to_square_bbox (get_padded_landmark_bbox pts f)) ∨
  (∃ press release : ℤ × ℤ, b = manual_crop_box press release)


/-! ### Arithmetic lemmas for the truncated halving and the geometry helpers -/

lemma ratTrunc_intCast (n : ℤ) : ratTrunc (n : ℚ) = n := by
  unfold ratTrunc
  rcases le_or_lt 0 n with h | h
  · rw [if_pos (by exact_mod_cast h), Int.floor_intCast]
  · rw [if_neg (by exact_mod_cast h.not_le), ← Int.cast_neg, Int.floor_intCast, neg_neg]

/-- Evaluation of the landmark padding at the default `padding_factor = 1.0`
(the value `prepare_faces` always passes): each padding equals the full
width/height of the landmark bounding rectangle. -/
lemma get_padded_landmark_bbox_factor_one (p : ℤ × ℤ) (rest : List (ℤ × ℤ)) :
    get_padded_landmark_bbox (p :: rest) 1 =
      ⟨2 * npMin p.1 (rest.map Prod.fst) - npMax p.1 (rest.map Prod.fst),
       2 * npMin p.2 (rest.map Prod.snd) - npMax p.2 (rest.map Prod.snd),
       2 * npMax p.1 (rest.map Prod.fst) - npMin p.1 (rest.map Prod.fst),
       2 * npMax p.2 (rest.map Prod.snd) - npMin p.2 (rest.map Prod.snd)⟩ := by
  unfold get_padded_landmark_bbox
  simp only [mul_one, ratTrunc_intCast, Bbox.mk.injEq]
  omega

lemma intTrunc2_bounds (n : ℤ) :
    n - 1 ≤ 2 * intTrunc2 n ∧ 2 * intTrunc2 n ≤ n + 1 ∧
    (0 ≤ n → 2 * intTrunc2 n ≤ n) ∧ (n ≤ 0 → n ≤ 2 * intTrunc2 n) := by
  unfold intTrunc2
  split_ifs with h <;> omega

lemma intTrunc2_two_mul (k : ℤ) : intTrunc2 (2 * k) = k := by
  unfold intTrunc2
  split_ifs with h <;> omega

lemma intTrunc2_mono {a b : ℤ} (h : a ≤ b) : intTrunc2 a ≤ intTrunc2 b := by
  unfold intTrunc2
  split_ifs with h1 h2 h2 <;> omega

/-- The side length the squared box gets on one axis: truncation can lose at
most one pixel relative to the requested side `s`. -/
lemma truncDiff_le (m s : ℤ) (hs : 0 ≤ s) : intTrunc2 (m + s) - intTrunc2 (m - s) ≤ s := by
  obtain ⟨h1, h2, h3, h4⟩ := intTrunc2_bounds (m + s)
  obtain ⟨g1, g2, g3, g4⟩ := intTrunc2_bounds (m - s)
  rcases le_total 0 (m - s) with h | h
  · have := h3 (by omega)
    omega
  · have := g4 h
    omega

lemma truncDiff_ge (m s : ℤ) : s - 1 ≤ intTrunc2 (m + s) - intTrunc2 (m - s) := by
  obtain ⟨h1, h2, h3, h4⟩ := intTrunc2_bounds (m + s)
  obtain ⟨g1, g2, g3, g4⟩ := intTrunc2_bounds (m - s)
  omega

lemma truncDiff_nonneg (m s : ℤ) (hs : 0 ≤ s) :
    0 ≤ intTrunc2 (m + s) - intTrunc2 (m - s) :=
  sub_nonneg.mpr (intTrunc2_mono (by omega))

/-- When the exact (pre-truncation) left edge `(m - s) / 2` is nonnegative,
no pixel is lost: the squared box's side on that axis is exactly `s`. -/
lemma truncDiff_eq (m s : ℤ) (hs : 0 ≤ s) (h : 0 ≤ m - s) :
    intTrunc2 (m + s) - intTrunc2 (m - s) = s := by
  obtain ⟨h1, h2, h3, h4⟩ := intTrunc2_bounds (m + s)
  obtain ⟨g1, g2, g3, g4⟩ := intTrunc2_bounds (m - s)
  have ha := h3 (by omega)
  have hb := g3 h
  omega

/-- The doubled center of the squared box moves by at most one from the
doubled center of the input (so the center moves by at most half a pixel). -/
lemma truncSum_center (m s : ℤ) :
    |intTrunc2 (m + s) + intTrunc2 (m - s) - m| ≤ 1 := by
  obtain ⟨h1, h2, h3, h4⟩ := intTrunc2_bounds (m + s)
  obtain ⟨g1, g2, g3, g4⟩ := intTrunc2_bounds (m - s)
  rw [abs_le]
  omega

/-- Let-free restatement of `to_square_bbox`. -/
lemma to_square_bbox_def (b : Bbox) :
    to_square_bbox b =
      ⟨intTrunc2 (2 * b.x1 + (b.x2 - b.x1) - max (b.x2 - b.x1) (b.y2 - b.y1)),
       intTrunc2 (2 * b.y1 + (b.y2 - b.y1) - max (b.x2 - b.x1) (b.y2 - b.y1)),
       intTrunc2 (2 * b.x1 + (b.x2 - b.x1) + max (b.x2 - b.x1) (b.y2 - b.y1)),
       intTrunc2 (2 * b.y1 + (b.y2 - b.y1) + max (b.x2 - b.x1) (b.y2 - b.y1))⟩ := rfl

/-- Size bounds for any squared box derived from a well-ordered rectangle:
both dimensions are nonnegative and they differ by at most one. -/
lemma to_square_bbox_size_bounds (b : Bbox) (hx : b.x1 ≤ b.x2) (hy : b.y1 ≤ b.y2) :
    0 ≤ (cropSize (to_square_bbox b)).1 ∧ 0 ≤ (cropSize (to_square_bbox b)).2 ∧
    |(cropSize (to_square_bbox b)).1 - (cropSize (to_square_bbox b)).2| ≤ 1 := by
  obtain ⟨x1, y1, x2, y2⟩ := b
  simp only at hx hy
  rw [to_square_bbox_def]
  dsimp [cropSize]
  have hs : (0 : ℤ) ≤ max (x2 - x1) (y2 - y1) :=
    le_trans (sub_nonneg.mpr hx) (le_max_left _ _)
  have dxle := truncDiff_le (2 * x1 + (x2 - x1)) (max (x2 - x1) (y2 - y1)) hs
  have dxge := truncDiff_ge (2 * x1 + (x2 - x1)) (max (x2 - x1) (y2 - y1))
  have dxnn := truncDiff_nonneg (2 * x1 + (x2 - x1)) (max (x2 - x1) (y2 - y1)) hs
  have dyle := truncDiff_le (2 * y1 + (y2 - y1)) (max (x2 - x1) (y2 - y1)) hs
  have dyge := truncDiff_ge (2 * y1 + (y2 - y1)) (max (x2 - x1) (y2 - y1))
  have dynn := truncDiff_nonneg (2 * y1 + (y2 - y1)) (max (x2 - x1) (y2 - y1)) hs
  refine ⟨by omega, by omega, ?_⟩
  rw [abs_le]
  omega

/-! ### Helper lemmas about the pipelines -/

lemma foldl_min_le_foldl_max (l : List ℤ) :
    ∀ a b : ℤ, a ≤ b → l.foldl min a ≤ l.foldl max b := by
  induction l with
  | nil => intro a b h; simpa using h
  | cons c t ih =>
    intro a b h
    exact ih _ _ (le_trans (min_le_left a c) (le_trans h (le_max_left b c)))

lemma npMin_le_npMax (x : ℤ) (xs : List ℤ) : npMin x xs ≤ npMax x xs :=
  foldl_min_le_foldl_max xs x x le_rfl

lemma ratTrunc_nonneg (q : ℚ) (h : 0 ≤ q) : 0 ≤ ratTrunc q := by
  unfold ratTrunc
  rw [if_pos h]
  exact Int.floor_nonneg.mpr h

/-- Let-free restatement of the landmark padding on a nonempty list. -/
lemma get_padded_landmark_bbox_cons (p : ℤ × ℤ) (rest : List (ℤ × ℤ)) (f : ℚ) :
    get_padded_landmark_bbox (p :: rest) f =
      ⟨npMin p.1 (rest.map Prod.fst) -
         ratTrunc (((npMax p.1 (rest.map Prod.fst) - npMin p.1 (rest.map Prod.fst) : ℤ) : ℚ) * f),
       npMin p.2 (rest.map Prod.snd) -
         ratTrunc (((npMax p.2 (rest.map Prod.snd) - npMin p.2 (rest.map Prod.snd) : ℤ) : ℚ) * f),
       npMax p.1 (rest.map Prod.fst) +
         ratTrunc (((npMax p.1 (rest.map Prod.fst) - npMin p.1 (rest.map Prod.fst) : ℤ) : ℚ) * f),
       npMax p.2 (rest.map Prod.snd) +
         ratTrunc (((npMax p.2 (rest.map Prod.snd) - npMin p.2 (rest.map Prod.snd) : ℤ) : ℚ) * f)⟩ :=
  rfl

/-- For a nonnegative padding factor the padded landmark box is
well-ordered: `x1 ≤ x2` and `y1 ≤ y2`. -/
lemma get_padded_landmark_bbox_wf (pts : List (ℤ × ℤ)) (f : ℚ) (hf : 0 ≤ f) :
    (get_padded_landmark_bbox pts f).x1 ≤ (get_padded_landmark_bbox pts f).x2 ∧
    (get_padded_landmark_bbox pts f).y1 ≤ (get_padded_landmark_bbox pts f).y2 := by
  cases pts with
  | nil => exact ⟨le_rfl, le_rfl⟩
  | cons p rest =>
    rw [get_padded_landmark_bbox_cons]
    have hx := npMin_le_npMax p.1 (rest.map Prod.fst)
    have hy := npMin_le_npMax p.2 (rest.map Prod.snd)
    have px : 0 ≤ ratTrunc (((npMax p.1 (rest.map Prod.fst) -
        npMin p.1 (rest.map Prod.fst) : ℤ) : ℚ) * f) :=
      ratTrunc_nonneg _ (mul_nonneg (by exact_mod_cast sub_nonneg.mpr hx) hf)
    have py : 0 ≤ ratTrunc (((npMax p.2 (rest.map Prod.snd) -
        npMin p.2 (rest.map Prod.snd) : ℤ) : ℚ) * f) :=
      ratTrunc_nonneg _ (mul_nonneg (by exact_mod_cast sub_nonneg.mpr hy) hf)
    exact ⟨by dsimp only; omega, by dsimp only; omega⟩

lemma buildRecords_mem (dir src : String) (bs : List Bbox) :
    ∀ i : ℕ, ∀ r ∈ buildRecords dir src i bs,
      r.original_bbox_square ∈ bs ∧ r.original_size = cropSize r.original_bbox_square := by
  induction bs with
  | nil => intro i r hr; cases hr
  | cons b rest ih =>
    intro i r hr
    rcases List.mem_cons.mp hr with rfl | hmem
    · exact ⟨List.mem_cons_self _ _, rfl⟩
    · obtain ⟨h1, h2⟩ := ih (i + 1) r hmem
      exact ⟨List.mem_cons_of_mem _ h1, h2⟩

/-- Every record returned by `prepare_faces` stores one of the supplied
boxes, and its `original_size` is the crop size of that box. -/
lemma prepare_faces_mem (ok : Bool) (p od : String) (boxes : List Bbox) (r : FaceRecord)
    (hr : r ∈ (prepare_faces ok p boxes od).1) :
    r.original_bbox_square ∈ boxes ∧ r.original_size = cropSize r.original_bbox_square := by
  unfold prepare_faces at hr
  rcases ok with _ | _
  · simp at hr
  · rcases boxes with _ | ⟨b, rest⟩
    · simp at hr
    · exact buildRecords_mem _ _ _ 0 r hr

lemma recombineLoop_mem {α : Type} (dir : String) (lookup : String → Option α)
    (records : List FaceRecord) (r : FaceRecord) (hr : r ∈ records) (a : α)
    (ha : lookup (reenactedFacePath dir r) = some a) :
    (⟨r.original_size, r.paste_coordinates, reenactedFacePath dir r⟩ : PasteOp) ∈
      (recombineLoop dir lookup records).1 := by
  induction records with
  | nil => cases hr
  | cons x rest ih =>
    rcases List.mem_cons.mp hr with rfl | hmem
    · simp only [recombineLoop, ha]
      exact List.mem_cons_self _ _
    · simp only [recombineLoop]
      cases h : lookup (reenactedFacePath dir x) with
      | none => exact ih hmem
      | some _ => exact List.mem_cons_of_mem _ (ih hmem)

lemma recombineLoop_count {α : Type} (dir : String) (lookup : String → Option α)
    (records : List FaceRecord) :
    (recombineLoop dir lookup records).2 =
      (records.filter (fun r => (lookup (reenactedFacePath dir r)).isSome)).length := by
  induction records with
  | nil => rfl
  | cons x rest ih =>
    simp only [recombineLoop]
    cases h : lookup (reenactedFacePath dir x) with
    | none => simpa [List.filter, h] using ih
    | some a => simpa [List.filter, h] using ih

lemma recombineLoop_ops {α : Type} (dir : String) (lookup : String → Option α)
    (records : List FaceRecord) :
    (recombineLoop dir lookup records).1 =
      records.filterMap (fun r => (lookup (reenactedFacePath dir r)).map
        (fun _ => (⟨r.original_size, r.paste_coordinates, reenactedFacePath dir r⟩ : PasteOp))) := by
  induction records with
  | nil => rfl
  | cons x rest ih =>
    simp only [recombineLoop, List.filterMap]
    cases h : lookup (reenactedFacePath dir x) with
    | none => simpa [h] using ih
    | some a => simpa [h] using ih

/-! ### Claims -/

/-- C1 (counterexample): the spec scenario miscomputes the vertical padding.
For the landmark bounding box `(100,100)-(200,250)` with `padding_factor =
1.0` the code pads by the full height 150 (not 75) vertically, so the padded
box is `(0,-50)-(300,400)`, not the claimed `(0,25)-(300,325)`, and the
resulting `FaceRecord` does not have `original_size = (300,300)` and
`paste_coordinates = (0,25)`. -/
theorem c1_scenario_counterexample :
    get_padded_landmark_bbox [(100, 100), (200, 250)] 1 ≠ ⟨0, 25, 300, 325⟩ ∧
    ((prepare_faces true "panel.png"
        [to_square_bbox (get_padded_landmark_bbox [(100, 100), (200, 250)] 1)] "out").1.map
      (fun r => (r.face_id, r.original_size, r.paste_coordinates))) ≠
      [(0, ((300 : ℤ), (300 : ℤ)), ((0 : ℤ), (25 : ℤ)))] := by
  have hpad : get_padded_landmark_bbox [(100, 100), (200, 250)] 1 = ⟨0, -50, 300, 400⟩ := by
    rw [get_padded_landmark_bbox_factor_one]; decide
  rw [hpad]
  exact ⟨by decide, by decide⟩

/-- C1 (amended): with `padding_factor = 1.0` the box `(100,100)-(200,250)`
(w=100, h=150) is padded by 100 horizontally and 150 vertically on each side,
giving `(0,-50)-(300,400)` (w=300, h=450); squaring it gives
`(-75,-50)-(375,400)` (side 450); the resulting `FaceRecord` has
`face_id = 0`, `original_size = (450,450)`, `paste_coordinates = (-75,-50)`. -/
theorem c1_scenario_corrected :
    get_padded_landmark_bbox [(100, 100), (200, 250)] 1 = ⟨0, -50, 300, 400⟩ ∧
    to_square_bbox ⟨0, -50, 300, 400⟩ = ⟨-75, -50, 375, 400⟩ ∧
    ((prepare_faces true "panel.png"
        [to_square_bbox (get_padded_landmark_bbox [(100, 100), (200, 250)] 1)] "out").1.map
      (fun r => (r.face_id, r.original_size, r.paste_coordinates))) =
      [(0, ((450 : ℤ), (450 : ℤ)), ((-75 : ℤ), (-50 : ℤ)))] := by
  have hpad : get_padded_landmark_bbox [(100, 100), (200, 250)] 1 = ⟨0, -50, 300, 400⟩ := by
    rw [get_padded_landmark_bbox_factor_one]; decide
  rw [hpad]
  exact ⟨rfl, by decide, by decide⟩

/-- C2 (counterexample): for the rectangle `(0,0,0,1)` (with `x1 ≤ x2` and
`y1 ≤ y2`) the squared box is `(0,0,0,1)` itself: truncation toward zero
collapses the x side to 0 instead of `max(width, height) = 1`. -/
theorem c2_square_side_counterexample :
    (0 : ℤ) ≤ 0 ∧ (0 : ℤ) ≤ 1 ∧
    to_square_bbox ⟨0, 0, 0, 1⟩ = ⟨0, 0, 0, 1⟩ ∧
    (to_square_bbox ⟨0, 0, 0, 1⟩).x2 - (to_square_bbox ⟨0, 0, 0, 1⟩).x1 ≠
      max ((0 : ℤ) - 0) ((1 : ℤ) - 0) := by decide

/-- C2 (amended): for a rectangle with `x1 ≤ x2`, `y1 ≤ y2` whose exact
squared box has nonnegative top-left coordinates (`max(w,h) ≤ 2*x1 + w` and
`max(w,h) ≤ 2*y1 + h`), the squared box has side exactly `max(w,h)` in both
axes, and its center differs from the input's center by at most one pixel
per axis (stated on doubled centers).  Without the nonnegativity condition a
side can come out one pixel short, as the counterexample shows. -/
theorem c2_square_geometry (x1 y1 x2 y2 : ℤ) (hx : x1 ≤ x2) (hy : y1 ≤ y2)
    (hx0 : max (x2 - x1) (y2 - y1) ≤ 2 * x1 + (x2 - x1))
    (hy0 : max (x2 - x1) (y2 - y1) ≤ 2 * y1 + (y2 - y1)) :
    (to_square_bbox ⟨x1, y1, x2, y2⟩).x2 - (to_square_bbox ⟨x1, y1, x2, y2⟩).x1 =
      max (x2 - x1) (y2 - y1) ∧
    (to_square_bbox ⟨x1, y1, x2, y2⟩).y2 - (to_square_bbox ⟨x1, y1, x2, y2⟩).y1 =
      max (x2 - x1) (y2 - y1) ∧
    |(to_square_bbox ⟨x1, y1, x2, y2⟩).x1 + (to_square_bbox ⟨x1, y1, x2, y2⟩).x2 -
      (x1 + x2)| ≤ 2 ∧
    |(to_square_bbox ⟨x1, y1, x2, y2⟩).y1 + (to_square_bbox ⟨x1, y1, x2, y2⟩).y2 -
      (y1 + y2)| ≤ 2 := by
  rw [to_square_bbox_def]
  dsimp only
  have hs : (0 : ℤ) ≤ max (x2 - x1) (y2 - y1) :=
    le_trans (sub_nonneg.mpr hx) (le_max_left _ _)
  refine ⟨truncDiff_eq _ _ hs (by omega), truncDiff_eq _ _ hs (by omega), ?_, ?_⟩
  · have h := truncSum_center (2 * x1 + (x2 - x1)) (max (x2 - x1) (y2 - y1))
    rw [abs_le] at h ⊢
    omega
  · have h := truncSum_center (2 * y1 + (y2 - y1)) (max (x2 - x1) (y2 - y1))
    rw [abs_le] at h ⊢
    omega

/-- C2 (witness): the amended statement at the rectangle `(10,10,20,25)`. -/
theorem c2_square_geometry_witness :
    (to_square_bbox ⟨10, 10, 20, 25⟩).x2 - (to_square_bbox ⟨10, 10, 20, 25⟩).x1 =
      max ((20 : ℤ) - 10) ((25 : ℤ) - 10) ∧
    (to_square_bbox ⟨10, 10, 20, 25⟩).y2 - (to_square_bbox ⟨10, 10, 20, 25⟩).y1 =
      max ((20 : ℤ) - 10) ((25 : ℤ) - 10) ∧
    |(to_square_bbox ⟨10, 10, 20, 25⟩).x1 + (to_square_bbox ⟨10, 10, 20, 25⟩).x2 -
      ((10 : ℤ) + 20)| ≤ 2 ∧
    |(to_square_bbox ⟨10, 10, 20, 25⟩).y1 + (to_square_bbox ⟨10, 10, 20, 25⟩).y2 -
      ((10 : ℤ) + 25)| ≤ 2 :=
  c2_square_geometry 10 10 20 25 (by decide) (by decide) (by decide) (by decide)

/-- C3: round-trip geometry.  For every `FaceRecord` produced by extraction
and any replacement lookup containing that record's file — whatever image it
maps it to — recombination performs a paste operation that resizes the
replacement to exactly the record's `original_size` and pastes it with
top-left corner at exactly the record's `paste_coordinates`. -/
theorem c3_roundtrip_geometry {α : Type} (p od dir out : String) (boxes : List Bbox)
    (lookup : String → Option α) (r : FaceRecord)
    (hr : r ∈ (prepare_faces true p boxes od).1) (a : α)
    (ha : lookup (reenactedFacePath dir r) = some a) :
    (⟨r.original_size, r.paste_coordinates, reenactedFacePath dir r⟩ : PasteOp) ∈
      (recombine_panel true true (prepare_faces true p boxes od).1 dir lookup out).1 := by
  have hprj : (recombine_panel true true (prepare_faces true p boxes od).1 dir lookup out).1 =
      (recombineLoop dir lookup (prepare_faces true p boxes od).1).1 := rfl
  rw [hprj]
  exact recombineLoop_mem dir lookup _ r hr a ha

/-- C3 (witness): one box `(0,0,10,10)` on image `a.png`; the produced
record round-trips through recombination with a lookup that finds every
file: the replacement is resized to `(10,10)` and pasted at `(0,0)`. -/
theorem c3_roundtrip_geometry_witness :
    (⟨((10 : ℤ), (10 : ℤ)), ((0 : ℤ), (0 : ℤ)), "rdir/face_0.png"⟩ : PasteOp) ∈
      (recombine_panel true true (prepare_faces true "a.png" [⟨0, 0, 10, 10⟩] "out").1 "rdir"
        (fun _ => some ()) "o/res.png").1 :=
  c3_roundtrip_geometry "a.png" "out" "rdir" "o/res.png" [⟨0, 0, 10, 10⟩] (fun _ => some ())
    ⟨0, "out/a/face_0.png", (10, 10), (0, 0), ⟨0, 0, 10, 10⟩, "a.png"⟩ (by decide) () rfl

/-- C4 (counterexample): the manual box for press `(0,0)` and release
`(10,20)` is `(0,0,20,20)`, anchored at the press point; its center (doubled:
`x1 + x2 = 20`) is not the drawn rectangle's center (doubled: `0 + 10`), so
the emitted box is not centered on the drawn rectangle. -/
theorem c4_manual_box_counterexample :
    manual_crop_box (0, 0) (10, 20) = ⟨0, 0, 20, 20⟩ ∧
    (manual_crop_box (0, 0) (10, 20)).x1 + (manual_crop_box (0, 0) (10, 20)).x2 ≠
      (0 : ℤ) + 10 := by decide

/-- C4 (amended): in manual mode the emitted box is a square of side
`max(|dx|, |dy|)` — the larger of the drawn rectangle's width and height —
but it is anchored with its top-left corner at the press point, extending
toward positive x and y; it is not recentered on the drawn rectangle (and it
never passes through `to_square_bbox`, being already square). -/
theorem c4_manual_box_corrected (press release : ℤ × ℤ) :
    (manual_crop_box press release).x1 = press.1 ∧
    (manual_crop_box press release).y1 = press.2 ∧
    (manual_crop_box press release).x2 - (manual_crop_box press release).x1 =
      max |release.1 - press.1| |release.2 - press.2| ∧
    (manual_crop_box press release).y2 - (manual_crop_box press release).y1 =
      max |release.1 - press.1| |release.2 - press.2| := by
  dsimp [manual_crop_box]
  exact ⟨rfl, rfl, by ring, by ring⟩

/-- C5 (counterexample): on empty input the record set is empty and no file
is written, but `prepare_faces` has already created the namespaced output
directory (`os.makedirs` runs before the region list is examined), so "no
output directory is created" is false. -/
theorem c5_empty_input_counterexample :
    (prepare_faces true "panel.png" [] "prepared_faces_final").1 = [] ∧
    FsEffect.mkDir "prepared_faces_final/panel" ∈
      (prepare_faces true "panel.png" [] "prepared_faces_final").2 := by decide

/-- C5 (amended): extraction with zero regions returns an empty record set
and writes no files — no metadata document and no face image — but it does
create the namespaced output directory (its only file-system effect). -/
theorem c5_empty_input_corrected (p od : String) :
    (prepare_faces true p [] od).1 = [] ∧
    (prepare_faces true p [] od).2 =
      [FsEffect.mkDir (joinPath od (splitextRoot (basename p)))] :=
  ⟨rfl, rfl⟩

/-- C6 (counterexample): the persisted metadata record does not use the
field name `canonical_image_path` at all; the canonical image path is stored
under `face_image_512px_path`. -/
theorem c6_field_names_counterexample :
    "canonical_image_path" ∉
      (faceMetadataPairs ⟨0, "out/a/face_0.png", (10, 10), (0, 0), ⟨0, 0, 10, 10⟩,
        "a.png"⟩).map Prod.fst ∧
    "face_image_512px_path" ∈
      (faceMetadataPairs ⟨0, "out/a/face_0.png", (10, 10), (0, 0), ⟨0, 0, 10, 10⟩,
        "a.png"⟩).map Prod.fst := by decide

/-- C6 (amended): every persisted record uses exactly the field names
`face_id`, `face_image_512px_path`, `original_size`, `paste_coordinates`,
`original_bbox_square`, `source_image` — the canonical image path lives
under `face_image_512px_path`, not under the spec's `canonical_image_path` —
and recombination reads records by those same names, successfully recovering
the four fields it uses from any persisted record. -/
theorem c6_field_names_corrected (r : FaceRecord) :
    (faceMetadataPairs r).map Prod.fst =
      ["face_id", "face_image_512px_path", "original_size", "paste_coordinates",
       "original_bbox_square", "source_image"] ∧
    (faceMetadataPairs r).lookup "face_image_512px_path" =
      some (MVal.mStr r.face_image_512px_path) ∧
    readFaceData (faceMetadataPairs r) =
      some ((r.face_id : ℤ), r.face_image_512px_path, r.original_size, r.paste_coordinates) :=
  ⟨rfl, rfl, rfl⟩

/-- C7: a missing replacement file is a recoverable per-record failure — the
record is skipped and the loop continues, so the successes are exactly the
records whose file is found, in stored order — and the recombined output
image is written if and only if the success count is positive. -/
theorem c7_partial_success {α : Type} (records : List FaceRecord) (dir : String)
    (lookup : String → Option α) (out : String) :
    (FsEffect.writeFile out ∈ (recombine_panel true true records dir lookup out).2.2 ↔
      0 < (recombine_panel true true records dir lookup out).2.1) ∧
    (recombine_panel true true records dir lookup out).2.1 =
      (records.filter (fun r => (lookup (reenactedFacePath dir r)).isSome)).length ∧
    (recombine_panel true true records dir lookup out).1 =
      records.filterMap (fun r => (lookup (reenactedFacePath dir r)).map
        (fun _ => (⟨r.original_size, r.paste_coordinates, reenactedFacePath dir r⟩ :
          PasteOp))) := by
  have h21 : (recombine_panel true true records dir lookup out).2.1 =
      (recombineLoop dir lookup records).2 := rfl
  have h1 : (recombine_panel true true records dir lookup out).1 =
      (recombineLoop dir lookup records).1 := rfl
  have h22 : (recombine_panel true true records dir lookup out).2.2 =
      (if 0 < (recombineLoop dir lookup records).2
        then [FsEffect.mkDir (dirname out), FsEffect.writeFile out] else []) := rfl
  refine ⟨?_, ?_, ?_⟩
  · rw [h21, h22]
    by_cases h : 0 < (recombineLoop dir lookup records).2
    · simp [h]
    · simp [h]
  · rw [h21]
    exact recombineLoop_count dir lookup records
  · rw [h1]
    exact recombineLoop_ops dir lookup records

/-- C8 (counterexample): a degenerate manual selection (press = release)
produces a record with `original_size = (0,0)`, refuting "both ≥ 1"; and an
auto-mode landmark set `{(0,0), (1,2)}` produces, through padding and
squaring, a record with `original_size = (5,6)`, refuting
"width equals height". -/
theorem c8_original_size_counterexample :
    ((prepare_faces true "a.png" [manual_crop_box (0, 0) (0, 0)] "out").1.map
      (fun r => r.original_size)) = [((0 : ℤ), (0 : ℤ))] ∧
    ((prepare_faces true "b.png"
        [to_square_bbox (get_padded_landmark_bbox [(0, 0), (1, 2)] 1)] "out").1.map
      (fun r => r.original_size)) = [((5 : ℤ), (6 : ℤ))] := by
  have hpad : get_padded_landmark_bbox [(0, 0), (1, 2)] 1 = ⟨-1, -2, 2, 4⟩ := by
    rw [get_padded_landmark_bbox_factor_one]; decide
  rw [hpad]
  exact ⟨by decide, by decide⟩

/-- C8 (amended): for every `FaceRecord` produced by extraction from boxes
built by either selection mode, both components of `original_size` are
nonnegative and they differ by at most one pixel; exact squareness and
"both ≥ 1" fail in general (see the counterexample). -/
theorem c8_original_size_corrected (ok : Bool) (p od : String) (boxes : List Bbox)
    (hboxes : ∀ b ∈ boxes, NormalizedBox b) (r : FaceRecord)
    (hr : r ∈ (prepare_faces ok p boxes od).1) :
    0 ≤ r.original_size.1 ∧ 0 ≤ r.original_size.2 ∧
    |r.original_size.1 - r.original_size.2| ≤ 1 := by
  obtain ⟨hmem, hsize⟩ := prepare_faces_mem ok p od boxes r hr
  rw [hsize]
  rcases hboxes _ hmem with ⟨pts, f, hf, hb⟩ | ⟨press, release, hb⟩
  · rw [hb]
    obtain ⟨hx, hy⟩ := get_padded_landmark_bbox_wf pts f hf
    exact to_square_bbox_size_bounds _ hx hy
  · rw [hb]
    dsimp [manual_crop_box, cropSize]
    have h0 : (0 : ℤ) ≤ max |release.1 - press.1| |release.2 - press.2| :=
      le_trans (abs_nonneg _) (le_max_left _ _)
    refine ⟨by omega, by omega, ?_⟩
    rw [abs_le]
    omega

/-- C8 (witness): the amended statement at the manual box drawn from `(0,0)`
to `(3,4)`, whose record has `original_size = (4,4)`. -/
theorem c8_original_size_corrected_witness :
    0 ≤ ((4 : ℤ), (4 : ℤ)).1 ∧ 0 ≤ ((4 : ℤ), (4 : ℤ)).2 ∧
    |((4 : ℤ), (4 : ℤ)).1 - ((4 : ℤ), (4 : ℤ)).2| ≤ 1 :=
  c8_original_size_corrected true "a.png" "out" [manual_crop_box (0, 0) (3, 4)]
    (by
      intro b hb
      rw [List.mem_singleton] at hb
      exact Or.inr ⟨(0, 0), (3, 4), hb⟩)
    ⟨0, "out/a/face_0.png", (4, 4), (0, 0), ⟨0, 0, 4, 4⟩, "a.png"⟩ (by decide)

/-- C9: squaring is idempotent — on any already-square box `to_square_bbox`
is the identity (the truncations are exact because both halved quantities
are even). -/
theorem c9_squaring_idempotent (b : Bbox) (h : b.x2 - b.x1 = b.y2 - b.y1) :
    to_square_bbox b = b := by
  obtain ⟨x1, y1, x2, y2⟩ := b
  have h' : x2 - x1 = y2 - y1 := h
  rw [to_square_bbox_def]
  dsimp only
  have hmax : max (x2 - x1) (y2 - y1) = x2 - x1 := by rw [h']; exact max_self _
  have e1 : 2 * x1 + (x2 - x1) - max (x2 - x1) (y2 - y1) = 2 * x1 := by rw [hmax]; ring
  have e2 : 2 * x1 + (x2 - x1) + max (x2 - x1) (y2 - y1) = 2 * x2 := by rw [hmax]; ring
  have e3 : 2 * y1 + (y2 - y1) - max (x2 - x1) (y2 - y1) = 2 * y1 := by rw [hmax]; omega
  have e4 : 2 * y1 + (y2 - y1) + max (x2 - x1) (y2 - y1) = 2 * y2 := by rw [hmax]; omega
  rw [e1, e2, e3, e4, intTrunc2_two_mul, intTrunc2_two_mul, intTrunc2_two_mul,
    intTrunc2_two_mul]

/-- C9 (witness): the already-square box `(1,2,4,5)` is returned unchanged. -/
theorem c9_squaring_idempotent_witness : to_square_bbox ⟨1, 2, 4, 5⟩ = ⟨1, 2, 4, 5⟩ :=
  c9_squaring_idempotent ⟨1, 2, 4, 5⟩ (by decide)

/-- C10: recombination locates a replacement solely by joining the
replacement directory with the basename of the record's stored
`face_image_512px_path`; even when that basename is not `face_<face_id>.png`
the stored basename is used, and changing `face_id` alone never changes the
looked-up path. -/
theorem c10_lookup_by_basename (dir : String) (r : FaceRecord)
    (h : basename r.face_image_512px_path ≠ "face_" ++ toString r.face_id ++ ".png") :
    reenactedFacePath dir r = joinPath dir (basename r.face_image_512px_path) ∧
    ∀ n : ℕ, reenactedFacePath dir { r with face_id := n } = reenactedFacePath dir r :=
  ⟨rfl, fun _ => rfl⟩

/-- C10 (witness): a record with `face_id = 3` whose stored path basename is
`portrait.png` is looked up at `rdir/portrait.png`, independently of its
`face_id`. -/
theorem c10_lookup_by_basename_witness :
    reenactedFacePath "rdir"
        ⟨3, "elsewhere/portrait.png", (10, 10), (0, 0), ⟨0, 0, 10, 10⟩, "a.png"⟩ =
      joinPath "rdir" (basename "elsewhere/portrait.png") ∧
    ∀ n : ℕ, reenactedFacePath "rdir"
        ({ face_id := n, face_image_512px_path := "elsewhere/portrait.png",
           original_size := (10, 10), paste_coordinates := (0, 0),
           original_bbox_square := ⟨0, 0, 10, 10⟩, source_image := "a.png" } : FaceRecord) =
      reenactedFacePath "rdir"
        ⟨3, "elsewhere/portrait.png", (10, 10), (0, 0), ⟨0, 0, 10, 10⟩, "a.png"⟩ :=
  c10_lookup_by_basename "rdir"
    ⟨3, "elsewhere/portrait.png", (10, 10), (0, 0), ⟨0, 0, 10, 10⟩, "a.png"⟩ (by decide)

end MangaFaceReenact
